import Mathlib

/-!
A formalisation of the calculation module of the pipeline-integrity
dashboard (`AdamFatih.py`): the burst-pressure models (Von Mises, Tresca,
ASME B31G, DNV-RP-F101, PCORRC), the cyclic-stress and fatigue-criteria
computations, and the corrosion-growth (FFS) projector.  Python floats are
modelled as real numbers.  A division whose denominator is a non-constant
expression is modelled fallibly (`fdiv`), mirroring Python's
`ZeroDivisionError`; the explicit geometry guard at the top of
`calculate_pressures` is modelled as `CalcError.invalidGeometry`
(a `ValueError` in the source).
-/

/-- Errors of the calculation module: the explicit geometry guard
(`ValueError` in the source) and Python's `ZeroDivisionError`. -/
inductive CalcError where
  | invalidGeometry
  | zeroDivision
  deriving DecidableEq

/-- Division as in Python: a zero denominator raises `ZeroDivisionError`. -/
noncomputable def fdiv (a b : ℝ) : Except CalcError ℝ :=
  if b = 0 then Except.error CalcError.zeroDivision else Except.ok (a / b)

/-- The flat input record consumed by the calculation functions
(the `inputs` dict of the source). -/
structure Inputs where
  pipe_thickness : ℝ
  pipe_diameter : ℝ
  corrosion_length : ℝ
  corrosion_depth : ℝ
  uts : ℝ
  yield_stress : ℝ
  max_pressure : ℝ
  min_pressure : ℝ

/-- The five burst pressures returned by `calculate_pressures`. -/
structure PressureResult where
  P_vm : ℝ
  P_tresca : ℝ
  P_asme : ℝ
  P_dnv : ℝ
  P_pcorrc : ℝ

/-- Lean embedding of `calculate_pressures` (`AdamFatih.py`, lines 415–449). -/
noncomputable def calculate_pressures (inputs : Inputs) : Except CalcError PressureResult := do
  let t := inputs.pipe_thickness
  let D := inputs.pipe_diameter
  let Lc := inputs.corrosion_length
  let Dc := inputs.corrosion_depth
  let UTS := inputs.uts
  -- Validate inputs to prevent division by zero
  if t ≤ 0 ∨ D ≤ 0 then
    throw CalcError.invalidGeometry
  -- Intact pipe burst pressures
  let P_vm ← fdiv (4 * t * UTS) (Real.sqrt 3 * D)
  let P_tresca ← fdiv (2 * t * UTS) D
  -- Corroded pipe burst pressures: Folias factor
  let M := Real.sqrt (1 + 0.8 * (← fdiv (Lc ^ 2) (D * t)))
  let P_asme ←
    if Lc ≤ Real.sqrt (20 * D * t) then do
      let base ← fdiv (2 * t * UTS) D
      let r ← fdiv Dc t
      let s ← fdiv (2 / 3 * r) M
      let frac ← fdiv (1 - 2 / 3 * r) (1 - s)
      pure (base * frac)
    else do
      let base ← fdiv (2 * t * UTS) D
      let r ← fdiv Dc t
      pure (base * (1 - r))
  let Q := Real.sqrt (1 + (← fdiv (0.31 * Lc ^ 2) (D * t)))
  let Bd ← fdiv (2 * UTS * t) (D - t)
  let r1 ← fdiv Dc t
  let r2 ← fdiv Dc (t * Q)
  let fr ← fdiv (1 - r1) (1 - r2)
  let P_dnv := Bd * fr
  let base2 ← fdiv (2 * t * UTS) D
  let r3 ← fdiv Dc t
  let P_pcorrc := base2 * (1 - r3)
  return { P_vm := P_vm, P_tresca := P_tresca, P_asme := P_asme,
           P_dnv := P_dnv, P_pcorrc := P_pcorrc }

/-- The cyclic-stress record returned by `calculate_stresses`. -/
structure StressResult where
  sigma_vm_max : ℝ
  sigma_vm_min : ℝ
  sigma_a : ℝ
  sigma_m : ℝ
  Se : ℝ
  sigma_f : ℝ

/-- The inner `vm_stress` helper of `calculate_stresses`. -/
noncomputable def vm_stress (p1 p2 p3 : ℝ) : ℝ :=
  1 / Real.sqrt 2 * Real.sqrt ((p1 - p2) ^ 2 + (p2 - p3) ^ 2 + (p3 - p1) ^ 2)

/-- Lean embedding of `calculate_stresses` (`AdamFatih.py`, lines 451–488). -/
noncomputable def calculate_stresses (inputs : Inputs) : Except CalcError StressResult := do
  let t := inputs.pipe_thickness
  let D := inputs.pipe_diameter
  let Pop_max := inputs.max_pressure
  let Pop_min := inputs.min_pressure
  let UTS := inputs.uts
  -- Principal stresses
  let P1_max ← fdiv (Pop_max * D) (2 * t)
  let P2_max ← fdiv (Pop_max * D) (4 * t)
  let P3_max : ℝ := 0
  let P1_min ← fdiv (Pop_min * D) (2 * t)
  let P2_min ← fdiv (Pop_min * D) (4 * t)
  let P3_min : ℝ := 0
  -- Von Mises stresses
  let sigma_vm_max := vm_stress P1_max P2_max P3_max
  let sigma_vm_min := vm_stress P1_min P2_min P3_min
  -- Fatigue parameters
  let sigma_a := (sigma_vm_max - sigma_vm_min) / 2
  let sigma_m := (sigma_vm_max + sigma_vm_min) / 2
  let Se := 0.5 * UTS
  let sigma_f := UTS + 345
  return { sigma_vm_max := sigma_vm_max, sigma_vm_min := sigma_vm_min,
           sigma_a := sigma_a, sigma_m := sigma_m, Se := Se, sigma_f := sigma_f }

/-- The five fatigue-criteria ratios returned by `calculate_fatigue_criteria`. -/
structure FatigueResult where
  Goodman : ℝ
  Soderberg : ℝ
  Gerber : ℝ
  Morrow : ℝ
  ASME_Elliptic : ℝ

/-- Lean embedding of `calculate_fatigue_criteria` (`AdamFatih.py`, lines 490–497). -/
noncomputable def calculate_fatigue_criteria (sigma_a sigma_m Se UTS Sy sigma_f : ℝ) :
    Except CalcError FatigueResult := do
  let Goodman := (← fdiv sigma_a Se) + (← fdiv sigma_m UTS)
  let Soderberg := (← fdiv sigma_a Se) + (← fdiv sigma_m Sy)
  let Gerber := (← fdiv sigma_a Se) + (← fdiv sigma_m UTS) ^ 2
  let Morrow := (← fdiv sigma_a Se) + (← fdiv sigma_m sigma_f)
  let ASME_Elliptic := Real.sqrt ((← fdiv sigma_a Se) ^ 2 + (← fdiv sigma_m Sy) ^ 2)
  return { Goodman := Goodman, Soderberg := Soderberg, Gerber := Gerber,
           Morrow := Morrow, ASME_Elliptic := ASME_Elliptic }

/-- The safety classification applied to each fatigue ratio
(`safe = value <= 1`, `AdamFatih.py`, line 807). -/
def fatigue_safe (value : ℝ) : Prop := value ≤ 1

/-- The inputs consumed by `calculate_ffs_assessment` (a projection over the
years `inspection_year .. inspection_year + projection_years`). -/
structure FFSInputs where
  pipe_thickness : ℝ
  pipe_diameter : ℝ
  uts : ℝ
  max_pressure : ℝ
  inspection_year : ℕ
  projection_years : ℕ
  radial_corrosion_rate : ℝ
  axial_corrosion_rate : ℝ

/-- One point of the corrosion-growth projection (the per-year dict appended
to `results` in `calculate_ffs_assessment`). -/
structure ProjPoint where
  year : ℕ
  depth : ℝ
  length : ℝ
  P_asme : ℝ
  P_dnv : ℝ
  P_pcorrc : ℝ
  erf_asme : ℝ
  erf_dnv : ℝ
  erf_pcorrc : ℝ
  critical_erf : ℝ

/-- The `failure_years` dict of `calculate_ffs_assessment`: a missing key is
`none`. -/
structure FailureYears where
  asme : Option ℕ
  dnv : Option ℕ
  pcorrc : Option ℕ

/-- One iteration of the projection loop of `calculate_ffs_assessment`
(`AdamFatih.py`, lines 504–545): `e` is `years_elapsed`, so the point's year
is `inspection_year + e`.  Every division of the loop body (burst-pressure
denominators, `D − t`, and the three ERF divisions) is modelled fallibly
with `fdiv`, mirroring Python's `ZeroDivisionError`. -/
noncomputable def ffs_point (I : FFSInputs) (current_depth current_length : ℝ)
    (e : ℕ) : Except CalcError ProjPoint := do
  let year := I.inspection_year + e
  let years_elapsed : ℝ := (e : ℝ)
  let d0 := current_depth + I.radial_corrosion_rate * years_elapsed
  let L := current_length + I.axial_corrosion_rate * years_elapsed
  -- Cap depth at 80% wall thickness
  let d := min d0 (I.pipe_thickness * 0.8)
  let M := Real.sqrt (1 + 0.8 * (← fdiv (L ^ 2) (I.pipe_diameter * I.pipe_thickness)))
  let P_asme ←
    if L ≤ Real.sqrt (20 * I.pipe_diameter * I.pipe_thickness) then do
      let base ← fdiv (2 * I.pipe_thickness * I.uts) I.pipe_diameter
      let r ← fdiv d I.pipe_thickness
      let s ← fdiv (2 / 3 * r) M
      let frac ← fdiv (1 - 2 / 3 * r) (1 - s)
      pure (base * frac)
    else do
      let base ← fdiv (2 * I.pipe_thickness * I.uts) I.pipe_diameter
      let r ← fdiv d I.pipe_thickness
      pure (base * (1 - r))
  let Q := Real.sqrt (1 + (← fdiv (0.31 * L ^ 2) (I.pipe_diameter * I.pipe_thickness)))
  let Bd ← fdiv (2 * I.uts * I.pipe_thickness) (I.pipe_diameter - I.pipe_thickness)
  let r1 ← fdiv d I.pipe_thickness
  let r2 ← fdiv d (I.pipe_thickness * Q)
  let fr ← fdiv (1 - r1) (1 - r2)
  let P_dnv := Bd * fr
  let base2 ← fdiv (2 * I.pipe_thickness * I.uts) I.pipe_diameter
  let r3 ← fdiv d I.pipe_thickness
  let P_pcorrc := base2 * (1 - r3)
  let erf_asme ← fdiv I.max_pressure P_asme
  let erf_dnv ← fdiv I.max_pressure P_dnv
  let erf_pcorrc ← fdiv I.max_pressure P_pcorrc
  let critical_erf := max (max erf_asme erf_dnv) erf_pcorrc
  return { year := year, depth := d, length := L,
           P_asme := P_asme, P_dnv := P_dnv, P_pcorrc := P_pcorrc,
           erf_asme := erf_asme, erf_dnv := erf_dnv, erf_pcorrc := erf_pcorrc,
           critical_erf := critical_erf }

/-- The value a successful iteration of the projection loop records: the same
formulas as `ffs_point`, written with ordinary real division.  This is a
description of the `Except.ok` payload, not the embedding itself
(`ffs_point_ok` connects the two when no division fails). -/
noncomputable def ffs_value (I : FFSInputs) (current_depth current_length : ℝ)
    (e : ℕ) : ProjPoint :=
  let year := I.inspection_year + e
  let years_elapsed : ℝ := (e : ℝ)
  let d0 := current_depth + I.radial_corrosion_rate * years_elapsed
  let L := current_length + I.axial_corrosion_rate * years_elapsed
  let d := min d0 (I.pipe_thickness * 0.8)
  let M := Real.sqrt (1 + 0.8 * (L ^ 2 / (I.pipe_diameter * I.pipe_thickness)))
  let P_asme :=
    if L ≤ Real.sqrt (20 * I.pipe_diameter * I.pipe_thickness) then
      2 * I.pipe_thickness * I.uts / I.pipe_diameter *
        ((1 - 2 / 3 * (d / I.pipe_thickness)) / (1 - 2 / 3 * (d / I.pipe_thickness) / M))
    else
      2 * I.pipe_thickness * I.uts / I.pipe_diameter * (1 - d / I.pipe_thickness)
  let Q := Real.sqrt (1 + 0.31 * L ^ 2 / (I.pipe_diameter * I.pipe_thickness))
  let P_dnv := 2 * I.uts * I.pipe_thickness / (I.pipe_diameter - I.pipe_thickness) *
    ((1 - d / I.pipe_thickness) / (1 - d / (I.pipe_thickness * Q)))
  let P_pcorrc := 2 * I.pipe_thickness * I.uts / I.pipe_diameter * (1 - d / I.pipe_thickness)
  let erf_asme := I.max_pressure / P_asme
  let erf_dnv := I.max_pressure / P_dnv
  let erf_pcorrc := I.max_pressure / P_pcorrc
  let critical_erf := max (max erf_asme erf_dnv) erf_pcorrc
  { year := year, depth := d, length := L,
    P_asme := P_asme, P_dnv := P_dnv, P_pcorrc := P_pcorrc,
    erf_asme := erf_asme, erf_dnv := erf_dnv, erf_pcorrc := erf_pcorrc,
    critical_erf := critical_erf }

/-- The per-point update of the `failure_years` dict (`AdamFatih.py`,
lines 548–553): a model's failure year is set only when its ERF reaches 1.0
and no year was recorded for that model before. -/
noncomputable def update_failure (fy : FailureYears) (p : ProjPoint) : FailureYears :=
  { asme := if 1 ≤ p.erf_asme ∧ fy.asme = none then some p.year else fy.asme
    dnv := if 1 ≤ p.erf_dnv ∧ fy.dnv = none then some p.year else fy.dnv
    pcorrc := if 1 ≤ p.erf_pcorrc ∧ fy.pcorrc = none then some p.year else fy.pcorrc }

/-- Sequential evaluation of the projection loop over a list of elapsed
years: the first failing iteration aborts the whole computation, exactly as
an uncaught `ZeroDivisionError` aborts the Python loop. -/
noncomputable def ffs_points (I : FFSInputs) (current_depth current_length : ℝ) :
    List ℕ → Except CalcError (List ProjPoint)
  | [] => Except.ok []
  | e :: es => do
      let p ← ffs_point I current_depth current_length e
      let ps ← ffs_points I current_depth current_length es
      return p :: ps

/-- Lean embedding of `calculate_ffs_assessment` (`AdamFatih.py`,
lines 500–555): the loop over `range(inspection_year,
inspection_year + projection_years + 1)` runs over the elapsed years
`0 .. projection_years` in order; a division error in any iteration aborts
the call with no result, and on success the `failure_years` dict is the left
fold of `update_failure` over the recorded points in loop order (equivalent
to the source's interleaved updates, which are lost anyway on an error). -/
noncomputable def calculate_ffs_assessment (I : FFSInputs)
    (current_depth current_length : ℝ) :
    Except CalcError (List ProjPoint × FailureYears) := do
  let results ← ffs_points I current_depth current_length
    (List.range (I.projection_years + 1))
  return (results, results.foldl update_failure ⟨none, none, none⟩)

/-! Helper lemmas used to evaluate the monadic embeddings. -/

lemma except_ok_bind {α β : Type} (a : α) (f : α → Except CalcError β) :
    (Except.ok a : Except CalcError α) >>= f = f a := rfl

lemma except_error_bind {α β : Type} (e : CalcError) (f : α → Except CalcError β) :
    (Except.error e : Except CalcError α) >>= f = Except.error e := rfl

lemma except_pure {α : Type} (a : α) : (pure a : Except CalcError α) = Except.ok a := rfl

lemma except_throw {α : Type} (e : CalcError) :
    (throw e : Except CalcError α) = Except.error e := rfl

lemma one_le_sqrt_of {y : ℝ} (h : 1 ≤ y) : 1 ≤ Real.sqrt y := by
  calc (1 : ℝ) = Real.sqrt 1 := Real.sqrt_one.symm
  _ ≤ Real.sqrt y := Real.sqrt_le_sqrt h

lemma one_lt_sqrt_of {y : ℝ} (h : 1 < y) : 1 < Real.sqrt y := by
  calc (1 : ℝ) = Real.sqrt 1 := Real.sqrt_one.symm
  _ < Real.sqrt y := Real.sqrt_lt_sqrt (by norm_num) h

/-- The Folias factor `M` is at least 1 for positive geometry. -/
lemma foliasM_one_le (t D Lc : ℝ) (ht : 0 < t) (hD : 0 < D) :
    1 ≤ Real.sqrt (1 + 0.8 * (Lc ^ 2 / (D * t))) := by
  have h0 : 0 ≤ Lc ^ 2 / (D * t) := div_nonneg (sq_nonneg _) (mul_pos hD ht).le
  exact one_le_sqrt_of (by nlinarith)

/-- The Folias factor `M` exceeds 1 for a positive defect length. -/
lemma foliasM_one_lt (t D Lc : ℝ) (ht : 0 < t) (hD : 0 < D) (hLc : 0 < Lc) :
    1 < Real.sqrt (1 + 0.8 * (Lc ^ 2 / (D * t))) := by
  have h0 : 0 < Lc ^ 2 / (D * t) := div_pos (by positivity) (mul_pos hD ht)
  exact one_lt_sqrt_of (by nlinarith)

/-- The DNV length-correction factor `Q` is at least 1 for positive geometry. -/
lemma dnvQ_one_le (t D Lc : ℝ) (ht : 0 < t) (hD : 0 < D) :
    1 ≤ Real.sqrt (1 + 0.31 * Lc ^ 2 / (D * t)) := by
  have h0 : 0 ≤ 0.31 * Lc ^ 2 / (D * t) :=
    div_nonneg (by positivity) (mul_pos hD ht).le
  exact one_le_sqrt_of (by nlinarith)

/-- The DNV factor `Q` exceeds 1 for a positive defect length. -/
lemma dnvQ_one_lt (t D Lc : ℝ) (ht : 0 < t) (hD : 0 < D) (hLc : 0 < Lc) :
    1 < Real.sqrt (1 + 0.31 * Lc ^ 2 / (D * t)) := by
  have h0 : 0 < 0.31 * Lc ^ 2 / (D * t) := div_pos (by positivity) (mul_pos hD ht)
  exact one_lt_sqrt_of (by nlinarith)

/-- The denominator of the ASME B31G short-defect formula is positive for a
defect depth inside the wall. -/
lemma asme_den_pos (t D Lc Dc : ℝ) (ht : 0 < t) (hD : 0 < D) (hDc : 0 ≤ Dc)
    (hDct : Dc < t) :
    0 < 1 - 2 / 3 * (Dc / t) / Real.sqrt (1 + 0.8 * (Lc ^ 2 / (D * t))) := by
  have hM := foliasM_one_le t D Lc ht hD
  have hr0 : 0 ≤ Dc / t := div_nonneg hDc ht.le
  have hr1 : Dc / t < 1 := (div_lt_one ht).mpr hDct
  have h1 : 2 / 3 * (Dc / t) / Real.sqrt (1 + 0.8 * (Lc ^ 2 / (D * t))) ≤ 2 / 3 * (Dc / t) :=
    div_le_self (by nlinarith) hM
  nlinarith

/-- The denominator of the DNV formula is positive for a defect depth inside
the wall. -/
lemma dnv_den_pos (t D Lc Dc : ℝ) (ht : 0 < t) (hD : 0 < D) (hDc : 0 ≤ Dc)
    (hDct : Dc < t) :
    0 < 1 - Dc / (t * Real.sqrt (1 + 0.31 * Lc ^ 2 / (D * t))) := by
  have hQ := dnvQ_one_le t D Lc ht hD
  have hQ0 : 0 < Real.sqrt (1 + 0.31 * Lc ^ 2 / (D * t)) := lt_of_lt_of_le one_pos hQ
  have hle : t ≤ t * Real.sqrt (1 + 0.31 * Lc ^ 2 / (D * t)) :=
    le_mul_of_one_le_right ht.le hQ
  have h1 : Dc / (t * Real.sqrt (1 + 0.31 * Lc ^ 2 / (D * t))) ≤ Dc / t := by
    gcongr
  have h2 : Dc / t < 1 := (div_lt_one ht).mpr hDct
  linarith

/-- Evaluation of `calculate_pressures` on a valid input: the guard passes and
every division succeeds, producing exactly the closed-form burst pressures. -/
lemma calculate_pressures_ok (t D Lc Dc UTS Sy Pmax Pmin : ℝ) (ht : 0 < t) (hD : 0 < D)
    (hDt : D - t ≠ 0)
    (hasme : Lc ≤ Real.sqrt (20 * D * t) →
      1 - 2 / 3 * (Dc / t) / Real.sqrt (1 + 0.8 * (Lc ^ 2 / (D * t))) ≠ 0)
    (hdnv : 1 - Dc / (t * Real.sqrt (1 + 0.31 * Lc ^ 2 / (D * t))) ≠ 0) :
    calculate_pressures ⟨t, D, Lc, Dc, UTS, Sy, Pmax, Pmin⟩ = Except.ok
      { P_vm := 4 * t * UTS / (Real.sqrt 3 * D)
        P_tresca := 2 * t * UTS / D
        P_asme :=
          if Lc ≤ Real.sqrt (20 * D * t) then
            2 * t * UTS / D * ((1 - 2 / 3 * (Dc / t)) /
              (1 - 2 / 3 * (Dc / t) / Real.sqrt (1 + 0.8 * (Lc ^ 2 / (D * t)))))
          else 2 * t * UTS / D * (1 - Dc / t)
        P_dnv := 2 * UTS * t / (D - t) *
          ((1 - Dc / t) / (1 - Dc / (t * Real.sqrt (1 + 0.31 * Lc ^ 2 / (D * t)))))
        P_pcorrc := 2 * t * UTS / D * (1 - Dc / t) } := by
  have hguard : ¬(t ≤ 0 ∨ D ≤ 0) := by push_neg; exact ⟨ht, hD⟩
  have htne : t ≠ 0 := ne_of_gt ht
  have hDne : D ≠ 0 := ne_of_gt hD
  have hsD : Real.sqrt 3 * D ≠ 0 :=
    mul_ne_zero (ne_of_gt (Real.sqrt_pos.mpr (by norm_num))) hDne
  have hDtne : D * t ≠ 0 := mul_ne_zero hDne htne
  have hM : Real.sqrt (1 + 0.8 * (Lc ^ 2 / (D * t))) ≠ 0 :=
    ne_of_gt (lt_of_lt_of_le one_pos (foliasM_one_le t D Lc ht hD))
  have hQne : Real.sqrt (1 + 0.31 * Lc ^ 2 / (D * t)) ≠ 0 :=
    ne_of_gt (lt_of_lt_of_le one_pos (dnvQ_one_le t D Lc ht hD))
  have htQ : t * Real.sqrt (1 + 0.31 * Lc ^ 2 / (D * t)) ≠ 0 := mul_ne_zero htne hQne
  by_cases hbr : Lc ≤ Real.sqrt (20 * D * t)
  · have hasme' := hasme hbr
    simp [calculate_pressures, fdiv, hguard, hsD, htne, hDne, hDtne, hM, hQne, htQ, hDt,
      hdnv, hasme', hbr, except_ok_bind, except_pure]
  · simp [calculate_pressures, fdiv, hguard, hsD, htne, hDne, hDtne, hM, hQne, htQ, hDt,
      hdnv, hbr, except_ok_bind, except_pure]

/-- Evaluation of `calculate_stresses` for a nonzero wall thickness. -/
lemma calculate_stresses_ok (t D Lc Dc UTS Sy Pmax Pmin : ℝ) (ht : t ≠ 0) :
    calculate_stresses ⟨t, D, Lc, Dc, UTS, Sy, Pmax, Pmin⟩ = Except.ok
      { sigma_vm_max := vm_stress (Pmax * D / (2 * t)) (Pmax * D / (4 * t)) 0
        sigma_vm_min := vm_stress (Pmin * D / (2 * t)) (Pmin * D / (4 * t)) 0
        sigma_a := (vm_stress (Pmax * D / (2 * t)) (Pmax * D / (4 * t)) 0 -
          vm_stress (Pmin * D / (2 * t)) (Pmin * D / (4 * t)) 0) / 2
        sigma_m := (vm_stress (Pmax * D / (2 * t)) (Pmax * D / (4 * t)) 0 +
          vm_stress (Pmin * D / (2 * t)) (Pmin * D / (4 * t)) 0) / 2
        Se := 0.5 * UTS
        sigma_f := UTS + 345 } := by
  have h2t : (2 : ℝ) * t ≠ 0 := mul_ne_zero (by norm_num) ht
  have h4t : (4 : ℝ) * t ≠ 0 := mul_ne_zero (by norm_num) ht
  simp [calculate_stresses, fdiv, h2t, h4t, except_ok_bind, except_pure]

/-- Evaluation of `calculate_fatigue_criteria` when no divisor vanishes. -/
lemma calculate_fatigue_criteria_ok (sigma_a sigma_m Se UTS Sy sigma_f : ℝ)
    (hSe : Se ≠ 0) (hUTS : UTS ≠ 0) (hSy : Sy ≠ 0) (hf : sigma_f ≠ 0) :
    calculate_fatigue_criteria sigma_a sigma_m Se UTS Sy sigma_f = Except.ok
      { Goodman := sigma_a / Se + sigma_m / UTS
        Soderberg := sigma_a / Se + sigma_m / Sy
        Gerber := sigma_a / Se + (sigma_m / UTS) ^ 2
        Morrow := sigma_a / Se + sigma_m / sigma_f
        ASME_Elliptic := Real.sqrt ((sigma_a / Se) ^ 2 + (sigma_m / Sy) ^ 2) } := by
  simp [calculate_fatigue_criteria, fdiv, hSe, hUTS, hSy, hf, except_ok_bind, except_pure]

/-- A left fold of a first-crossing update over a list records the first
element satisfying the threshold test, and keeps an already-recorded value. -/
lemma foldl_first_crossing (g : ProjPoint → ℝ) (l : List ProjPoint) (acc : Option ℕ) :
    l.foldl (fun a p => if 1 ≤ g p ∧ a = none then some p.year else a) acc =
      match acc with
      | some y => some y
      | none => (l.find? fun p => decide (1 ≤ g p)).map ProjPoint.year := by
  induction l generalizing acc with
  | nil => cases acc <;> simp
  | cons p tl ih =>
    cases acc with
    | some y => simp [List.foldl, ih]
    | none =>
      by_cases h : 1 ≤ g p
      · simp [List.foldl, h, List.find?, ih]
      · simp [List.foldl, h, List.find?, ih]

/-- The `asme` component of the `failure_years` fold only depends on the
`asme` component of the accumulator. -/
lemma foldl_update_asme (l : List ProjPoint) (fy : FailureYears) :
    (l.foldl update_failure fy).asme =
      l.foldl (fun a p => if 1 ≤ p.erf_asme ∧ a = none then some p.year else a) fy.asme := by
  induction l generalizing fy with
  | nil => rfl
  | cons p tl ih => simp [List.foldl, update_failure, ih]

/-- The `dnv` component of the `failure_years` fold only depends on the
`dnv` component of the accumulator. -/
lemma foldl_update_dnv (l : List ProjPoint) (fy : FailureYears) :
    (l.foldl update_failure fy).dnv =
      l.foldl (fun a p => if 1 ≤ p.erf_dnv ∧ a = none then some p.year else a) fy.dnv := by
  induction l generalizing fy with
  | nil => rfl
  | cons p tl ih => simp [List.foldl, update_failure, ih]

/-- The `pcorrc` component of the `failure_years` fold only depends on the
`pcorrc` component of the accumulator. -/
lemma foldl_update_pcorrc (l : List ProjPoint) (fy : FailureYears) :
    (l.foldl update_failure fy).pcorrc =
      l.foldl (fun a p => if 1 ≤ p.erf_pcorrc ∧ a = none then some p.year else a) fy.pcorrc := by
  induction l generalizing fy with
  | nil => rfl
  | cons p tl ih => simp [List.foldl, update_failure, ih]

/-- The ASME B31G short-defect ratio is strictly decreasing in the relative
depth `r` when the Folias factor exceeds 1. -/
lemma short_frac_strict_anti (M r1 r2 : ℝ) (hM : 1 < M) (h1 : 0 ≤ r1)
    (h12 : r1 < r2) (h2 : r2 < 1) :
    (1 - 2 / 3 * r2) / (1 - 2 / 3 * r2 / M) < (1 - 2 / 3 * r1) / (1 - 2 / 3 * r1 / M) := by
  have hM0 : 0 < M := lt_trans one_pos hM
  have hMne : M ≠ 0 := ne_of_gt hM0
  have hd1 : 0 < M - 2 / 3 * r1 := by nlinarith
  have hd2 : 0 < M - 2 / 3 * r2 := by nlinarith
  have e : ∀ r : ℝ, 1 - 2 / 3 * r / M = (M - 2 / 3 * r) / M := by
    intro r; field_simp; ring
  rw [e r1, e r2, div_div_eq_mul_div, div_div_eq_mul_div, div_lt_div_iff₀ hd2 hd1]
  nlinarith [mul_pos (sub_pos.mpr h12) (sub_pos.mpr hM), hM0,
    mul_pos hM0 (mul_pos (sub_pos.mpr h12) (sub_pos.mpr hM))]

/-- The DNV depth ratio is strictly decreasing in the relative depth `r`
when the length factor `Q` exceeds 1. -/
lemma dnv_frac_strict_anti (Q r1 r2 : ℝ) (hQ : 1 < Q) (h1 : 0 ≤ r1)
    (h12 : r1 < r2) (h2 : r2 < 1) :
    (1 - r2) / (1 - r2 / Q) < (1 - r1) / (1 - r1 / Q) := by
  have hQ0 : 0 < Q := lt_trans one_pos hQ
  have hQne : Q ≠ 0 := ne_of_gt hQ0
  have hd1 : 0 < Q - r1 := by nlinarith
  have hd2 : 0 < Q - r2 := by nlinarith
  have e : ∀ r : ℝ, 1 - r / Q = (Q - r) / Q := by
    intro r; field_simp
  rw [e r1, e r2, div_div_eq_mul_div, div_div_eq_mul_div, div_lt_div_iff₀ hd2 hd1]
  nlinarith [mul_pos (sub_pos.mpr h12) (sub_pos.mpr hQ), hQ0,
    mul_pos hQ0 (mul_pos (sub_pos.mpr h12) (sub_pos.mpr hQ))]

/-- Evaluation of one projection iteration on valid geometry: positive
thickness and diameter, `D ≠ t`, nonzero `UTS` and a nonnegative grown depth
make every division of the loop body succeed, and the iteration returns the
`ffs_value` record. -/
lemma ffs_point_ok (t D uts Pmax : ℝ) (iy py : ℕ) (rr ar cd cl : ℝ) (e : ℕ)
    (ht : 0 < t) (hD : 0 < D) (hDt : D ≠ t) (hUTS : uts ≠ 0)
    (hd0 : 0 ≤ cd + rr * (e : ℝ)) :
    ffs_point ⟨t, D, uts, Pmax, iy, py, rr, ar⟩ cd cl e =
      Except.ok (ffs_value ⟨t, D, uts, Pmax, iy, py, rr, ar⟩ cd cl e) := by
  have htne : t ≠ 0 := ne_of_gt ht
  have hDne : D ≠ 0 := ne_of_gt hD
  have hDtne : D * t ≠ 0 := mul_ne_zero hDne htne
  have hsub : D - t ≠ 0 := sub_ne_zero_of_ne hDt
  have hdge : 0 ≤ min (cd + rr * (e : ℝ)) (t * 0.8) := le_min hd0 (by nlinarith)
  have hdlt : min (cd + rr * (e : ℝ)) (t * 0.8) < t :=
    lt_of_le_of_lt (min_le_right _ _) (by nlinarith)
  have hM : Real.sqrt (1 + 0.8 * ((cl + ar * (e : ℝ)) ^ 2 / (D * t))) ≠ 0 :=
    ne_of_gt (lt_of_lt_of_le one_pos (foliasM_one_le t D (cl + ar * (e : ℝ)) ht hD))
  have hQne : Real.sqrt (1 + 0.31 * (cl + ar * (e : ℝ)) ^ 2 / (D * t)) ≠ 0 :=
    ne_of_gt (lt_of_lt_of_le one_pos (dnvQ_one_le t D (cl + ar * (e : ℝ)) ht hD))
  have htQ : t * Real.sqrt (1 + 0.31 * (cl + ar * (e : ℝ)) ^ 2 / (D * t)) ≠ 0 :=
    mul_ne_zero htne hQne
  have hadp := asme_den_pos t D (cl + ar * (e : ℝ))
    (min (cd + rr * (e : ℝ)) (t * 0.8)) ht hD hdge hdlt
  have hddp := dnv_den_pos t D (cl + ar * (e : ℝ))
    (min (cd + rr * (e : ℝ)) (t * 0.8)) ht hD hdge hdlt
  have hrt1 : min (cd + rr * (e : ℝ)) (t * 0.8) / t < 1 := (div_lt_one ht).mpr hdlt
  have hrt0 : 0 ≤ min (cd + rr * (e : ℝ)) (t * 0.8) / t := div_nonneg hdge ht.le
  have hnum : (0 : ℝ) < 1 - 2 / 3 * (min (cd + rr * (e : ℝ)) (t * 0.8) / t) := by nlinarith
  have hnum1 : (0 : ℝ) < 1 - min (cd + rr * (e : ℝ)) (t * 0.8) / t := by nlinarith
  have hbase : 2 * t * uts / D ≠ 0 :=
    div_ne_zero (mul_ne_zero (mul_ne_zero two_ne_zero htne) hUTS) hDne
  have hPa_short : 2 * t * uts / D *
      ((1 - 2 / 3 * (min (cd + rr * (e : ℝ)) (t * 0.8) / t)) /
       (1 - 2 / 3 * (min (cd + rr * (e : ℝ)) (t * 0.8) / t) /
         Real.sqrt (1 + 0.8 * ((cl + ar * (e : ℝ)) ^ 2 / (D * t))))) ≠ 0 :=
    mul_ne_zero hbase (div_ne_zero (ne_of_gt hnum) (ne_of_gt hadp))
  have hPa_long : 2 * t * uts / D * (1 - min (cd + rr * (e : ℝ)) (t * 0.8) / t) ≠ 0 :=
    mul_ne_zero hbase (ne_of_gt hnum1)
  have hPd : 2 * uts * t / (D - t) *
      ((1 - min (cd + rr * (e : ℝ)) (t * 0.8) / t) /
       (1 - min (cd + rr * (e : ℝ)) (t * 0.8) /
         (t * Real.sqrt (1 + 0.31 * (cl + ar * (e : ℝ)) ^ 2 / (D * t))))) ≠ 0 :=
    mul_ne_zero (div_ne_zero (mul_ne_zero (mul_ne_zero two_ne_zero hUTS) htne) hsub)
      (div_ne_zero (ne_of_gt hnum1) (ne_of_gt hddp))
  by_cases hbr : cl + ar * (e : ℝ) ≤ Real.sqrt (20 * D * t)
  · simp [ffs_point, ffs_value, fdiv, htne, hDne, hDtne, hsub, hUTS, hM, hQne, htQ,
      ne_of_gt hadp, ne_of_gt hddp, ne_of_gt hnum, ne_of_gt hnum1, hbase,
      hPa_short, hPa_long, hPd, hbr, except_ok_bind, except_pure]
  · simp [ffs_point, ffs_value, fdiv, htne, hDne, hDtne, hsub, hUTS, hM, hQne, htQ,
      ne_of_gt hadp, ne_of_gt hddp, ne_of_gt hnum, ne_of_gt hnum1, hbase,
      hPa_short, hPa_long, hPd, hbr, except_ok_bind, except_pure]

/-- A projection over elapsed years all of whose iterations succeed returns
the mapped `ffs_value` list. -/
lemma ffs_points_ok (I : FFSInputs) (cd cl : ℝ) (es : List ℕ)
    (h : ∀ e ∈ es, ffs_point I cd cl e = Except.ok (ffs_value I cd cl e)) :
    ffs_points I cd cl es = Except.ok (es.map (ffs_value I cd cl)) := by
  induction es with
  | nil => rfl
  | cons e es ih =>
    simp only [ffs_points, h e (List.mem_cons_self e es), except_ok_bind,
      ih (fun a ha => h a (List.mem_cons_of_mem e ha)), except_pure, List.map_cons]

/-- Evaluation of `calculate_ffs_assessment` on valid geometry with
nonnegative initial depth and radial rate: every iteration succeeds and the
call returns the mapped projection list and its failure-year fold. -/
lemma calculate_ffs_assessment_ok (t D uts Pmax : ℝ) (iy py : ℕ) (rr ar cd cl : ℝ)
    (ht : 0 < t) (hD : 0 < D) (hDt : D ≠ t) (hUTS : uts ≠ 0)
    (hcd : 0 ≤ cd) (hrr : 0 ≤ rr) :
    calculate_ffs_assessment ⟨t, D, uts, Pmax, iy, py, rr, ar⟩ cd cl = Except.ok
      ((List.range (py + 1)).map (ffs_value ⟨t, D, uts, Pmax, iy, py, rr, ar⟩ cd cl),
       ((List.range (py + 1)).map (ffs_value ⟨t, D, uts, Pmax, iy, py, rr, ar⟩ cd cl)).foldl
         update_failure ⟨none, none, none⟩) := by
  have hall : ∀ e ∈ List.range (py + 1),
      ffs_point ⟨t, D, uts, Pmax, iy, py, rr, ar⟩ cd cl e =
        Except.ok (ffs_value ⟨t, D, uts, Pmax, iy, py, rr, ar⟩ cd cl e) := fun e _ =>
    ffs_point_ok t D uts Pmax iy py rr ar cd cl e ht hD hDt hUTS
      (add_nonneg hcd (mul_nonneg hrr (Nat.cast_nonneg e)))
  simp [calculate_ffs_assessment, ffs_points_ok _ cd cl _ hall, except_ok_bind, except_pure]

/-- C1: for positive geometry with `D ≠ t`, nonnegative defect dimensions and
nonvanishing formula denominators, `calculate_pressures` returns exactly the
five closed-form burst pressures of the specification: the Von Mises and
Tresca intact pressures, the branched ASME B31G pressure with Folias factor
`M = √(1 + 0.8·Lc²/(D·t))`, the DNV-RP-F101 pressure with
`Q = √(1 + 0.31·Lc²/(D·t))`, and the PCORRC pressure. -/
theorem C1_pressure_formulas (t D Lc Dc UTS Sy Pmax Pmin : ℝ)
    (ht : 0 < t) (hD : 0 < D) (hDt : D ≠ t) (hLc : 0 ≤ Lc) (hDc : 0 ≤ Dc)
    (hasme : Lc ≤ Real.sqrt (20 * D * t) →
      1 - 2 / 3 * (Dc / t) / Real.sqrt (1 + 0.8 * (Lc ^ 2 / (D * t))) ≠ 0)
    (hdnv : 1 - Dc / (t * Real.sqrt (1 + 0.31 * Lc ^ 2 / (D * t))) ≠ 0) :
    calculate_pressures ⟨t, D, Lc, Dc, UTS, Sy, Pmax, Pmin⟩ = Except.ok
      { P_vm := 4 * t * UTS / (Real.sqrt 3 * D)
        P_tresca := 2 * t * UTS / D
        P_asme :=
          if Lc ≤ Real.sqrt (20 * D * t) then
            2 * t * UTS / D * ((1 - 2 / 3 * (Dc / t)) /
              (1 - 2 / 3 * (Dc / t) / Real.sqrt (1 + 0.8 * (Lc ^ 2 / (D * t)))))
          else 2 * t * UTS / D * (1 - Dc / t)
        P_dnv := 2 * UTS * t / (D - t) *
          ((1 - Dc / t) / (1 - Dc / (t * Real.sqrt (1 + 0.31 * Lc ^ 2 / (D * t)))))
        P_pcorrc := 2 * t * UTS / D * (1 - Dc / t) } :=
  calculate_pressures_ok t D Lc Dc UTS Sy Pmax Pmin ht hD (sub_ne_zero_of_ne hDt) hasme hdnv

/-- C1 witness: the reference input t=10, D=200, Lc=50, Dc=2, UTS=400. -/
theorem C1_pressure_formulas_witness :
    calculate_pressures ⟨10, 200, 50, 2, 400, 300, 10, 5⟩ = Except.ok
      { P_vm := 4 * 10 * 400 / (Real.sqrt 3 * 200)
        P_tresca := 2 * 10 * 400 / 200
        P_asme :=
          if (50 : ℝ) ≤ Real.sqrt (20 * 200 * 10) then
            2 * 10 * 400 / 200 * ((1 - 2 / 3 * (2 / 10)) /
              (1 - 2 / 3 * (2 / 10) / Real.sqrt (1 + 0.8 * (50 ^ 2 / (200 * 10)))))
          else 2 * 10 * 400 / 200 * (1 - 2 / 10)
        P_dnv := 2 * 400 * 10 / (200 - 10) *
          ((1 - 2 / 10) / (1 - 2 / (10 * Real.sqrt (1 + 0.31 * 50 ^ 2 / (200 * 10)))))
        P_pcorrc := 2 * 10 * 400 / 200 * (1 - 2 / 10) } :=
  C1_pressure_formulas 10 200 50 2 400 300 10 5 (by norm_num) (by norm_num) (by norm_num)
    (by norm_num) (by norm_num)
    (fun _ => ne_of_gt (asme_den_pos 10 200 50 2 (by norm_num) (by norm_num)
      (by norm_num) (by norm_num)))
    (ne_of_gt (dnv_den_pos 10 200 50 2 (by norm_num) (by norm_num)
      (by norm_num) (by norm_num)))

/-- C2: the ASME B31G branch of `calculate_pressures` uses `≤` at the
boundary: when `Lc` equals `√(20·D·t)` (and more generally whenever
`Lc ≤ √(20·D·t)`) the short-defect formula is used, and the long-defect
formula is used exactly when `Lc > √(20·D·t)`. -/
theorem C2_asme_branch_boundary (t D Lc Dc UTS Sy Pmax Pmin : ℝ)
    (ht : 0 < t) (hD : 0 < D) (hDt : D ≠ t)
    (hasme : Lc ≤ Real.sqrt (20 * D * t) →
      1 - 2 / 3 * (Dc / t) / Real.sqrt (1 + 0.8 * (Lc ^ 2 / (D * t))) ≠ 0)
    (hdnv : 1 - Dc / (t * Real.sqrt (1 + 0.31 * Lc ^ 2 / (D * t))) ≠ 0)
    (r : PressureResult)
    (hr : calculate_pressures ⟨t, D, Lc, Dc, UTS, Sy, Pmax, Pmin⟩ = Except.ok r) :
    (Lc = Real.sqrt (20 * D * t) →
      r.P_asme = 2 * t * UTS / D * ((1 - 2 / 3 * (Dc / t)) /
        (1 - 2 / 3 * (Dc / t) / Real.sqrt (1 + 0.8 * (Lc ^ 2 / (D * t)))))) ∧
    (Lc ≤ Real.sqrt (20 * D * t) →
      r.P_asme = 2 * t * UTS / D * ((1 - 2 / 3 * (Dc / t)) /
        (1 - 2 / 3 * (Dc / t) / Real.sqrt (1 + 0.8 * (Lc ^ 2 / (D * t)))))) ∧
    (Real.sqrt (20 * D * t) < Lc →
      r.P_asme = 2 * t * UTS / D * (1 - Dc / t)) := by
  rw [calculate_pressures_ok t D Lc Dc UTS Sy Pmax Pmin ht hD
    (sub_ne_zero_of_ne hDt) hasme hdnv] at hr
  injection hr with hr
  subst hr
  refine ⟨fun h => ?_, fun h => ?_, fun h => ?_⟩
  · simp only [if_pos (le_of_eq h)]
  · simp only [if_pos h]
  · simp only [if_neg (not_le.mpr h)]

/-- C2 witness: at t=10, D=200 the boundary is `√(20·D·t) = 200`; with
`Lc = 200` exactly, `P_asme` is the short-defect value. -/
theorem C2_asme_branch_boundary_witness :
    Except.map PressureResult.P_asme (calculate_pressures ⟨10, 200, 200, 2, 400, 300, 10, 5⟩) =
      Except.ok (2 * 10 * 400 / 200 * ((1 - 2 / 3 * (2 / 10)) /
        (1 - 2 / 3 * (2 / 10) / Real.sqrt (1 + 0.8 * (200 ^ 2 / (200 * 10)))))) := by
  have hok := calculate_pressures_ok 10 200 200 2 400 300 10 5 (by norm_num) (by norm_num)
    (by norm_num)
    (fun _ => ne_of_gt (asme_den_pos 10 200 200 2 (by norm_num) (by norm_num) (by norm_num)
      (by norm_num)))
    (ne_of_gt (dnv_den_pos 10 200 200 2 (by norm_num) (by norm_num) (by norm_num) (by norm_num)))
  have heq : (200 : ℝ) = Real.sqrt (20 * 200 * 10) := by
    rw [show (20 * 200 * 10 : ℝ) = 200 ^ 2 by norm_num]
    exact (Real.sqrt_sq (by norm_num)).symm
  have h1 := (C2_asme_branch_boundary 10 200 200 2 400 300 10 5 (by norm_num) (by norm_num)
    (by norm_num)
    (fun _ => ne_of_gt (asme_den_pos 10 200 200 2 (by norm_num) (by norm_num) (by norm_num)
      (by norm_num)))
    (ne_of_gt (dnv_den_pos 10 200 200 2 (by norm_num) (by norm_num) (by norm_num) (by norm_num)))
    _ hok).1 heq
  rw [hok]
  exact congrArg Except.ok h1

/-- C3: the geometry guard fires (with `InvalidGeometryError`) exactly on
`t ≤ 0` or `D ≤ 0`, before any formula is evaluated, so no result is
produced there; with positive geometry and `D = t` the DNV division makes
the call fail with a domain (zero-division) error instead of returning a
value; and with positive geometry the guard never fires. -/
theorem C3_guard_and_domain (t D Lc Dc UTS Sy Pmax Pmin : ℝ) :
    ((t ≤ 0 ∨ D ≤ 0) →
      calculate_pressures ⟨t, D, Lc, Dc, UTS, Sy, Pmax, Pmin⟩ =
        Except.error CalcError.invalidGeometry) ∧
    (0 < t → 0 < D → D = t →
      calculate_pressures ⟨t, D, Lc, Dc, UTS, Sy, Pmax, Pmin⟩ =
        Except.error CalcError.zeroDivision) ∧
    (0 < t → 0 < D → D ≠ t →
      calculate_pressures ⟨t, D, Lc, Dc, UTS, Sy, Pmax, Pmin⟩ ≠
        Except.error CalcError.invalidGeometry) := by
  refine ⟨fun h => ?_, fun ht hD hEq => ?_, fun ht hD hne => ?_⟩
  · simp [calculate_pressures, h, except_throw, except_error_bind]
  · subst hEq
    have hg : ¬(D ≤ 0) := not_le.mpr hD
    have hDne : D ≠ 0 := ne_of_gt hD
    have hsD : Real.sqrt 3 * D ≠ 0 :=
      mul_ne_zero (ne_of_gt (Real.sqrt_pos.mpr (by norm_num))) hDne
    have hDD : D * D ≠ 0 := mul_ne_zero hDne hDne
    have hM : Real.sqrt (1 + 0.8 * (Lc ^ 2 / (D * D))) ≠ 0 :=
      ne_of_gt (lt_of_lt_of_le one_pos (foliasM_one_le D D Lc hD hD))
    have hQne : Real.sqrt (1 + 0.31 * Lc ^ 2 / (D * D)) ≠ 0 :=
      ne_of_gt (lt_of_lt_of_le one_pos (dnvQ_one_le D D Lc hD hD))
    have hDQ : D * Real.sqrt (1 + 0.31 * Lc ^ 2 / (D * D)) ≠ 0 := mul_ne_zero hDne hQne
    by_cases hbr : Lc ≤ Real.sqrt (20 * D * D) <;>
      by_cases hden : 1 - 2 / 3 * (Dc / D) / Real.sqrt (1 + 0.8 * (Lc ^ 2 / (D * D))) = 0 <;>
      simp [calculate_pressures, fdiv, hg, hDne, hsD, hDD, hM, hQne, hDQ, hbr, hden,
        except_ok_bind, except_error_bind, except_pure, except_throw]
  · have hguard : ¬(t ≤ 0 ∨ D ≤ 0) := by push_neg; exact ⟨ht, hD⟩
    have htne : t ≠ 0 := ne_of_gt ht
    have hDne : D ≠ 0 := ne_of_gt hD
    have hsD : Real.sqrt 3 * D ≠ 0 :=
      mul_ne_zero (ne_of_gt (Real.sqrt_pos.mpr (by norm_num))) hDne
    have hDtne : D * t ≠ 0 := mul_ne_zero hDne htne
    have hM : Real.sqrt (1 + 0.8 * (Lc ^ 2 / (D * t))) ≠ 0 :=
      ne_of_gt (lt_of_lt_of_le one_pos (foliasM_one_le t D Lc ht hD))
    have hQne : Real.sqrt (1 + 0.31 * Lc ^ 2 / (D * t)) ≠ 0 :=
      ne_of_gt (lt_of_lt_of_le one_pos (dnvQ_one_le t D Lc ht hD))
    have htQ : t * Real.sqrt (1 + 0.31 * Lc ^ 2 / (D * t)) ≠ 0 := mul_ne_zero htne hQne
    have hDt : D - t ≠ 0 := sub_ne_zero_of_ne hne
    by_cases hbr : Lc ≤ Real.sqrt (20 * D * t) <;>
      by_cases hden : 1 - 2 / 3 * (Dc / t) / Real.sqrt (1 + 0.8 * (Lc ^ 2 / (D * t))) = 0 <;>
      by_cases hdd : 1 - Dc / (t * Real.sqrt (1 + 0.31 * Lc ^ 2 / (D * t))) = 0 <;>
      simp [calculate_pressures, fdiv, hguard, htne, hDne, hsD, hDtne, hM, hQne, htQ, hDt,
        hbr, hden, hdd, except_ok_bind, except_error_bind, except_pure, except_throw]

/-- C3 witness: the guard fires on t = 0; D = t = 10 gives the domain error;
the reference valid input does not hit the guard. -/
theorem C3_guard_and_domain_witness :
    calculate_pressures ⟨0, 200, 50, 2, 400, 300, 10, 5⟩ =
      Except.error CalcError.invalidGeometry ∧
    calculate_pressures ⟨10, 10, 50, 2, 400, 300, 10, 5⟩ =
      Except.error CalcError.zeroDivision ∧
    calculate_pressures ⟨10, 200, 50, 2, 400, 300, 10, 5⟩ ≠
      Except.error CalcError.invalidGeometry :=
  ⟨(C3_guard_and_domain 0 200 50 2 400 300 10 5).1 (Or.inl le_rfl),
   (C3_guard_and_domain 10 10 50 2 400 300 10 5).2.1 (by norm_num) (by norm_num) rfl,
   (C3_guard_and_domain 10 200 50 2 400 300 10 5).2.2 (by norm_num) (by norm_num) (by norm_num)⟩

/-- C10: with zero corrosion depth the ASME B31G and PCORRC pressures both
collapse to the intact Tresca pressure `2·t·UTS/D`, in either branch of the
defect-length split. -/
theorem C10_zero_depth_intact (t D Lc UTS Sy Pmax Pmin : ℝ)
    (ht : 0 < t) (hD : 0 < D) (hDt : D ≠ t) (hUTS : 0 < UTS) (hLc : 0 ≤ Lc) :
    calculate_pressures ⟨t, D, Lc, 0, UTS, Sy, Pmax, Pmin⟩ = Except.ok
      { P_vm := 4 * t * UTS / (Real.sqrt 3 * D)
        P_tresca := 2 * t * UTS / D
        P_asme := 2 * t * UTS / D
        P_dnv := 2 * UTS * t / (D - t)
        P_pcorrc := 2 * t * UTS / D } := by
  have h := calculate_pressures_ok t D Lc 0 UTS Sy Pmax Pmin ht hD (sub_ne_zero_of_ne hDt)
    (fun _ => by simp) (by simp)
  rw [h]
  simp

/-- C10 witness: the reference input with `Dc = 0`. -/
theorem C10_zero_depth_intact_witness :
    calculate_pressures ⟨10, 200, 50, 0, 400, 300, 10, 5⟩ = Except.ok
      { P_vm := 4 * 10 * 400 / (Real.sqrt 3 * 200)
        P_tresca := 2 * 10 * 400 / 200
        P_asme := 2 * 10 * 400 / 200
        P_dnv := 2 * 400 * 10 / (200 - 10)
        P_pcorrc := 2 * 10 * 400 / 200 } :=
  C10_zero_depth_intact 10 200 50 400 300 10 5 (by norm_num) (by norm_num) (by norm_num)
    (by norm_num) (by norm_num)

/-- C4: for positive geometry, `calculate_stresses` computes the principal
stresses `P1 = P·D/(2t)`, `P2 = P·D/(4t)`, `P3 = 0` independently at the
maximum and minimum operating pressure, the von Mises stress
`(1/√2)·√((P1−P2)² + (P2−P3)² + (P3−P1)²)` at each, and returns
`sigma_a = (σmax − σmin)/2`, `sigma_m = (σmax + σmin)/2`, `Se = 0.5·UTS`
and `sigma_f = UTS + 345`. -/
theorem C4_stress_formulas (t D Lc Dc UTS Sy Pmax Pmin : ℝ) (ht : 0 < t) (hD : 0 < D) :
    calculate_stresses ⟨t, D, Lc, Dc, UTS, Sy, Pmax, Pmin⟩ = Except.ok
      { sigma_vm_max := 1 / Real.sqrt 2 * Real.sqrt
          ((Pmax * D / (2 * t) - Pmax * D / (4 * t)) ^ 2 +
           (Pmax * D / (4 * t) - 0) ^ 2 + (0 - Pmax * D / (2 * t)) ^ 2)
        sigma_vm_min := 1 / Real.sqrt 2 * Real.sqrt
          ((Pmin * D / (2 * t) - Pmin * D / (4 * t)) ^ 2 +
           (Pmin * D / (4 * t) - 0) ^ 2 + (0 - Pmin * D / (2 * t)) ^ 2)
        sigma_a := (1 / Real.sqrt 2 * Real.sqrt
          ((Pmax * D / (2 * t) - Pmax * D / (4 * t)) ^ 2 +
           (Pmax * D / (4 * t) - 0) ^ 2 + (0 - Pmax * D / (2 * t)) ^ 2) -
          1 / Real.sqrt 2 * Real.sqrt
          ((Pmin * D / (2 * t) - Pmin * D / (4 * t)) ^ 2 +
           (Pmin * D / (4 * t) - 0) ^ 2 + (0 - Pmin * D / (2 * t)) ^ 2)) / 2
        sigma_m := (1 / Real.sqrt 2 * Real.sqrt
          ((Pmax * D / (2 * t) - Pmax * D / (4 * t)) ^ 2 +
           (Pmax * D / (4 * t) - 0) ^ 2 + (0 - Pmax * D / (2 * t)) ^ 2) +
          1 / Real.sqrt 2 * Real.sqrt
          ((Pmin * D / (2 * t) - Pmin * D / (4 * t)) ^ 2 +
           (Pmin * D / (4 * t) - 0) ^ 2 + (0 - Pmin * D / (2 * t)) ^ 2)) / 2
        Se := 0.5 * UTS
        sigma_f := UTS + 345 } := by
  rw [calculate_stresses_ok t D Lc Dc UTS Sy Pmax Pmin (ne_of_gt ht)]
  simp [vm_stress]

/-- C4 witness: the reference input t=10, D=200, Pmax=10, Pmin=5. -/
theorem C4_stress_formulas_witness :
    calculate_stresses ⟨10, 200, 50, 2, 400, 300, 10, 5⟩ = Except.ok
      { sigma_vm_max := 1 / Real.sqrt 2 * Real.sqrt
          ((10 * 200 / (2 * 10) - 10 * 200 / (4 * 10)) ^ 2 +
           (10 * 200 / (4 * 10) - 0) ^ 2 + (0 - 10 * 200 / (2 * 10)) ^ 2)
        sigma_vm_min := 1 / Real.sqrt 2 * Real.sqrt
          ((5 * 200 / (2 * 10) - 5 * 200 / (4 * 10)) ^ 2 +
           (5 * 200 / (4 * 10) - 0) ^ 2 + (0 - 5 * 200 / (2 * 10)) ^ 2)
        sigma_a := (1 / Real.sqrt 2 * Real.sqrt
          ((10 * 200 / (2 * 10) - 10 * 200 / (4 * 10)) ^ 2 +
           (10 * 200 / (4 * 10) - 0) ^ 2 + (0 - 10 * 200 / (2 * 10)) ^ 2) -
          1 / Real.sqrt 2 * Real.sqrt
          ((5 * 200 / (2 * 10) - 5 * 200 / (4 * 10)) ^ 2 +
           (5 * 200 / (4 * 10) - 0) ^ 2 + (0 - 5 * 200 / (2 * 10)) ^ 2)) / 2
        sigma_m := (1 / Real.sqrt 2 * Real.sqrt
          ((10 * 200 / (2 * 10) - 10 * 200 / (4 * 10)) ^ 2 +
           (10 * 200 / (4 * 10) - 0) ^ 2 + (0 - 10 * 200 / (2 * 10)) ^ 2) +
          1 / Real.sqrt 2 * Real.sqrt
          ((5 * 200 / (2 * 10) - 5 * 200 / (4 * 10)) ^ 2 +
           (5 * 200 / (4 * 10) - 0) ^ 2 + (0 - 5 * 200 / (2 * 10)) ^ 2)) / 2
        Se := 0.5 * 400
        sigma_f := 400 + 345 } :=
  C4_stress_formulas 10 200 50 2 400 300 10 5 (by norm_num) (by norm_num)

/-- C5: with nonzero `Se`, `UTS`, `Sy`, `sigma_f`, the function
`calculate_fatigue_criteria` returns exactly the five ratios Goodman,
Soderberg, Gerber, Morrow and ASME-Elliptic, and the safety classification
accepts a ratio of exactly 1.0 as safe (`≤ 1` inclusive) and classifies a
ratio above 1 as unsafe. -/
theorem C5_fatigue_formulas (sigma_a sigma_m Se UTS Sy sigma_f : ℝ)
    (hSe : Se ≠ 0) (hUTS : UTS ≠ 0) (hSy : Sy ≠ 0) (hf : sigma_f ≠ 0) :
    calculate_fatigue_criteria sigma_a sigma_m Se UTS Sy sigma_f = Except.ok
      { Goodman := sigma_a / Se + sigma_m / UTS
        Soderberg := sigma_a / Se + sigma_m / Sy
        Gerber := sigma_a / Se + (sigma_m / UTS) ^ 2
        Morrow := sigma_a / Se + sigma_m / sigma_f
        ASME_Elliptic := Real.sqrt ((sigma_a / Se) ^ 2 + (sigma_m / Sy) ^ 2) } ∧
    fatigue_safe 1 ∧ (∀ v : ℝ, fatigue_safe v ↔ v ≤ 1) ∧
    (∀ v : ℝ, ¬fatigue_safe v ↔ 1 < v) := by
  refine ⟨calculate_fatigue_criteria_ok sigma_a sigma_m Se UTS Sy sigma_f hSe hUTS hSy hf,
    le_refl 1, fun v => Iff.rfl, fun v => ?_⟩
  simp [fatigue_safe, not_le]

/-- C5 witness: sigma_a=1, sigma_m=1, Se=UTS=Sy=sigma_f=2. -/
theorem C5_fatigue_formulas_witness :
    calculate_fatigue_criteria 1 1 2 2 2 2 = Except.ok
      { Goodman := 1 / 2 + 1 / 2
        Soderberg := 1 / 2 + 1 / 2
        Gerber := 1 / 2 + (1 / 2) ^ 2
        Morrow := 1 / 2 + 1 / 2
        ASME_Elliptic := Real.sqrt ((1 / 2) ^ 2 + (1 / 2) ^ 2) } ∧
    fatigue_safe 1 ∧ (∀ v : ℝ, fatigue_safe v ↔ v ≤ 1) ∧
    (∀ v : ℝ, ¬fatigue_safe v ↔ 1 < v) :=
  C5_fatigue_formulas 1 1 2 2 2 2 (by norm_num) (by norm_num) (by norm_num) (by norm_num)

/-- C9: the alternating and mean stresses reconstruct the von Mises extremes
exactly: `sigma_vm_max = sigma_m + sigma_a` and
`sigma_vm_min = sigma_m − sigma_a`. -/
theorem C9_stress_reconstruction (t D Lc Dc UTS Sy Pmax Pmin : ℝ)
    (ht : 0 < t) (hD : 0 < D) (r : StressResult)
    (hr : calculate_stresses ⟨t, D, Lc, Dc, UTS, Sy, Pmax, Pmin⟩ = Except.ok r) :
    r.sigma_vm_max = r.sigma_m + r.sigma_a ∧ r.sigma_vm_min = r.sigma_m - r.sigma_a := by
  rw [calculate_stresses_ok t D Lc Dc UTS Sy Pmax Pmin (ne_of_gt ht)] at hr
  injection hr with hr
  subst hr
  constructor
  · dsimp only
    ring
  · dsimp only
    ring

/-- C9 witness: the reference input t=10, D=200, Pmax=10, Pmin=5. -/
theorem C9_stress_reconstruction_witness :
    vm_stress (10 * 200 / (2 * 10)) (10 * 200 / (4 * 10)) 0 =
      (vm_stress (10 * 200 / (2 * 10)) (10 * 200 / (4 * 10)) 0 +
       vm_stress (5 * 200 / (2 * 10)) (5 * 200 / (4 * 10)) 0) / 2 +
      (vm_stress (10 * 200 / (2 * 10)) (10 * 200 / (4 * 10)) 0 -
       vm_stress (5 * 200 / (2 * 10)) (5 * 200 / (4 * 10)) 0) / 2 ∧
    vm_stress (5 * 200 / (2 * 10)) (5 * 200 / (4 * 10)) 0 =
      (vm_stress (10 * 200 / (2 * 10)) (10 * 200 / (4 * 10)) 0 +
       vm_stress (5 * 200 / (2 * 10)) (5 * 200 / (4 * 10)) 0) / 2 -
      (vm_stress (10 * 200 / (2 * 10)) (10 * 200 / (4 * 10)) 0 -
       vm_stress (5 * 200 / (2 * 10)) (5 * 200 / (4 * 10)) 0) / 2 :=
  C9_stress_reconstruction 10 200 50 2 400 300 10 5 (by norm_num) (by norm_num) _
    (calculate_stresses_ok 10 200 50 2 400 300 10 5 (by norm_num))

/-- C6 counterexample, two parts.  First, at `Lc = 0` (allowed by the
claim's `Lc ≥ 0`) the Folias factor is exactly 1 and the ASME B31G
short-defect ratio is identically 1, so raising the corrosion depth from 0
to 1/2 (with t=1, D=2, UTS=1) leaves `P_asme` unchanged at 1 instead of
strictly decreasing it.  Second, at `D < t` (allowed by the claim's
`D > 0, D ≠ t`: t=10, D=5, Lc=1, UTS=1) the DNV coefficient
`2·UTS·t/(D−t)` is negative, so raising the depth from 0 to 5 makes
`P_dnv` increase from −4 instead of strictly decreasing. -/
theorem C6_claim_counterexample :
    (Except.map PressureResult.P_asme (calculate_pressures ⟨1, 2, 0, 1 / 2, 1, 1, 1, 0⟩) =
      Except.ok 1 ∧
     Except.map PressureResult.P_asme (calculate_pressures ⟨1, 2, 0, 0, 1, 1, 1, 0⟩) =
      Except.ok 1 ∧
     ¬((1 : ℝ) < 1)) ∧
    (Except.map PressureResult.P_dnv (calculate_pressures ⟨10, 5, 1, 0, 1, 1, 1, 0⟩) =
      Except.ok (-4) ∧
     Except.map PressureResult.P_dnv (calculate_pressures ⟨10, 5, 1, 5, 1, 1, 1, 0⟩) =
      Except.ok (2 * 1 * 10 / (5 - 10) *
        ((1 - 5 / 10) / (1 - 5 / (10 * Real.sqrt (1 + 0.31 * 1 ^ 2 / (5 * 10)))))) ∧
     ¬(2 * 1 * 10 / (5 - 10) *
        ((1 - 5 / 10) / (1 - 5 / (10 * Real.sqrt (1 + 0.31 * 1 ^ 2 / (5 * 10))))) <
       (-4 : ℝ))) := by
  refine ⟨⟨?_, ?_, by norm_num⟩, ?_, ?_, ?_⟩
  · rw [calculate_pressures_ok 1 2 0 (1 / 2) 1 1 1 0 (by norm_num) (by norm_num) (by norm_num)
      (fun _ => ne_of_gt (asme_den_pos 1 2 0 (1 / 2) (by norm_num) (by norm_num) (by norm_num)
        (by norm_num)))
      (ne_of_gt (dnv_den_pos 1 2 0 (1 / 2) (by norm_num) (by norm_num) (by norm_num)
        (by norm_num)))]
    norm_num [Real.sqrt_nonneg, Real.sqrt_one, Except.map]
  · rw [calculate_pressures_ok 1 2 0 0 1 1 1 0 (by norm_num) (by norm_num) (by norm_num)
      (fun _ => ne_of_gt (asme_den_pos 1 2 0 0 (by norm_num) (by norm_num) (by norm_num)
        (by norm_num)))
      (ne_of_gt (dnv_den_pos 1 2 0 0 (by norm_num) (by norm_num) (by norm_num) (by norm_num)))]
    norm_num [Real.sqrt_nonneg, Real.sqrt_one, Except.map]
  · rw [calculate_pressures_ok 10 5 1 0 1 1 1 0 (by norm_num) (by norm_num) (by norm_num)
      (fun _ => ne_of_gt (asme_den_pos 10 5 1 0 (by norm_num) (by norm_num) (by norm_num)
        (by norm_num)))
      (ne_of_gt (dnv_den_pos 10 5 1 0 (by norm_num) (by norm_num) (by norm_num) (by norm_num)))]
    norm_num [Except.map]
  · rw [calculate_pressures_ok 10 5 1 5 1 1 1 0 (by norm_num) (by norm_num) (by norm_num)
      (fun _ => ne_of_gt (asme_den_pos 10 5 1 5 (by norm_num) (by norm_num) (by norm_num)
        (by norm_num)))
      (ne_of_gt (dnv_den_pos 10 5 1 5 (by norm_num) (by norm_num) (by norm_num)
        (by norm_num)))]
    rfl
  · have hden := dnv_den_pos 10 5 1 5 (by norm_num) (by norm_num) (by norm_num) (by norm_num)
    have hQ : (1 : ℝ) ≤ Real.sqrt (1 + 0.31 * 1 ^ 2 / (5 * 10)) :=
      dnvQ_one_le 10 5 1 (by norm_num) (by norm_num)
    have h10Q : (10 : ℝ) ≤ 10 * Real.sqrt (1 + 0.31 * 1 ^ 2 / (5 * 10)) :=
      le_mul_of_one_le_right (by norm_num) hQ
    have hsmall : (5 : ℝ) / (10 * Real.sqrt (1 + 0.31 * 1 ^ 2 / (5 * 10))) ≤ 5 / 10 := by
      gcongr
    have hr1 : ((1 : ℝ) - 5 / 10) / (1 - 5 / (10 * Real.sqrt (1 + 0.31 * 1 ^ 2 / (5 * 10)))) ≤
        1 := (div_le_one hden).mpr (by linarith)
    have hr0 : (0 : ℝ) ≤ (1 - 5 / 10) /
        (1 - 5 / (10 * Real.sqrt (1 + 0.31 * 1 ^ 2 / (5 * 10)))) :=
      div_nonneg (by norm_num) hden.le
    refine not_lt.mpr ?_
    nlinarith

/-- C6 (amended): with a strictly positive defect length `Lc > 0` and
geometry satisfying `0 < t < D`, increasing the corrosion depth (holding
everything else fixed) strictly decreases `P_asme`, `P_dnv` and `P_pcorrc`.
Both narrowings are forced by the counterexample: at `Lc = 0` the ASME and
DNV depth ratios are identically 1 (first part), and at `D < t` the negative
DNV coefficient makes `P_dnv` increase with depth (second part), so the
claim's `Lc ≥ 0` is tightened to `Lc > 0` and its `D ≠ t` to `t < D`. -/
theorem C6_depth_strict_anti (t D Lc UTS Sy Pmax Pmin Dc1 Dc2 : ℝ)
    (ht : 0 < t) (htD : t < D) (hUTS : 0 < UTS) (hLc : 0 < Lc)
    (h1 : 0 ≤ Dc1) (h12 : Dc1 < Dc2) (h2 : Dc2 < t) (r1 r2 : PressureResult)
    (hr1 : calculate_pressures ⟨t, D, Lc, Dc1, UTS, Sy, Pmax, Pmin⟩ = Except.ok r1)
    (hr2 : calculate_pressures ⟨t, D, Lc, Dc2, UTS, Sy, Pmax, Pmin⟩ = Except.ok r2) :
    r2.P_asme < r1.P_asme ∧ r2.P_dnv < r1.P_dnv ∧ r2.P_pcorrc < r1.P_pcorrc := by
  have hD : 0 < D := lt_trans ht htD
  have hDt : D - t ≠ 0 := ne_of_gt (sub_pos.mpr htD)
  have h1t : Dc1 < t := lt_trans h12 h2
  have h02 : 0 ≤ Dc2 := le_trans h1 h12.le
  rw [calculate_pressures_ok t D Lc Dc1 UTS Sy Pmax Pmin ht hD hDt
      (fun _ => ne_of_gt (asme_den_pos t D Lc Dc1 ht hD h1 h1t))
      (ne_of_gt (dnv_den_pos t D Lc Dc1 ht hD h1 h1t))] at hr1
  rw [calculate_pressures_ok t D Lc Dc2 UTS Sy Pmax Pmin ht hD hDt
      (fun _ => ne_of_gt (asme_den_pos t D Lc Dc2 ht hD h02 h2))
      (ne_of_gt (dnv_den_pos t D Lc Dc2 ht hD h02 h2))] at hr2
  injection hr1 with hr1
  injection hr2 with hr2
  subst hr1
  subst hr2
  have hcoef : 0 < 2 * t * UTS / D := by positivity
  have hr1t0 : 0 ≤ Dc1 / t := div_nonneg h1 ht.le
  have hr12 : Dc1 / t < Dc2 / t := by gcongr
  have hr2t1 : Dc2 / t < 1 := (div_lt_one ht).mpr h2
  refine ⟨?_, ?_, ?_⟩
  · dsimp only
    by_cases hbr : Lc ≤ Real.sqrt (20 * D * t)
    · rw [if_pos hbr, if_pos hbr]
      exact mul_lt_mul_of_pos_left
        (short_frac_strict_anti _ (Dc1 / t) (Dc2 / t)
          (foliasM_one_lt t D Lc ht hD hLc) hr1t0 hr12 hr2t1) hcoef
    · rw [if_neg hbr, if_neg hbr]
      have hlin : 1 - Dc2 / t < 1 - Dc1 / t := by linarith
      exact mul_lt_mul_of_pos_left hlin hcoef
  · dsimp only
    have hcoefd : 0 < 2 * UTS * t / (D - t) := div_pos (by positivity) (sub_pos.mpr htD)
    rw [← div_div Dc1 t (Real.sqrt (1 + 0.31 * Lc ^ 2 / (D * t))),
        ← div_div Dc2 t (Real.sqrt (1 + 0.31 * Lc ^ 2 / (D * t)))]
    exact mul_lt_mul_of_pos_left
      (dnv_frac_strict_anti _ (Dc1 / t) (Dc2 / t)
        (dnvQ_one_lt t D Lc ht hD hLc) hr1t0 hr12 hr2t1) hcoefd
  · dsimp only
    have hlin : 1 - Dc2 / t < 1 - Dc1 / t := by linarith
    exact mul_lt_mul_of_pos_left hlin hcoef

/-- C6 witness: at t=10, D=200, Lc=50, UTS=400 the three corroded-model
pressures at depth 4 are strictly below those at depth 2. -/
theorem C6_depth_strict_anti_witness :
    (if (50 : ℝ) ≤ Real.sqrt (20 * 200 * 10) then
        2 * 10 * 400 / 200 * ((1 - 2 / 3 * (4 / 10)) /
          (1 - 2 / 3 * (4 / 10) / Real.sqrt (1 + 0.8 * (50 ^ 2 / (200 * 10)))))
      else 2 * 10 * 400 / 200 * (1 - 4 / 10)) <
    (if (50 : ℝ) ≤ Real.sqrt (20 * 200 * 10) then
        2 * 10 * 400 / 200 * ((1 - 2 / 3 * (2 / 10)) /
          (1 - 2 / 3 * (2 / 10) / Real.sqrt (1 + 0.8 * (50 ^ 2 / (200 * 10)))))
      else 2 * 10 * 400 / 200 * (1 - 2 / 10)) ∧
    2 * 400 * 10 / (200 - 10) *
      ((1 - 4 / 10) / (1 - 4 / (10 * Real.sqrt (1 + 0.31 * 50 ^ 2 / (200 * 10))))) <
    2 * 400 * 10 / (200 - 10) *
      ((1 - 2 / 10) / (1 - 2 / (10 * Real.sqrt (1 + 0.31 * 50 ^ 2 / (200 * 10))))) ∧
    (2 * 10 * 400 / 200 * (1 - 4 / 10) : ℝ) < 2 * 10 * 400 / 200 * (1 - 2 / 10) := by
  have h := C6_depth_strict_anti 10 200 50 400 300 10 5 2 4 (by norm_num) (by norm_num)
    (by norm_num) (by norm_num) (by norm_num) (by norm_num) (by norm_num) _ _
    (calculate_pressures_ok 10 200 50 2 400 300 10 5 (by norm_num) (by norm_num) (by norm_num)
      (fun _ => ne_of_gt (asme_den_pos 10 200 50 2 (by norm_num) (by norm_num) (by norm_num)
        (by norm_num)))
      (ne_of_gt (dnv_den_pos 10 200 50 2 (by norm_num) (by norm_num) (by norm_num)
        (by norm_num))))
    (calculate_pressures_ok 10 200 50 4 400 300 10 5 (by norm_num) (by norm_num) (by norm_num)
      (fun _ => ne_of_gt (asme_den_pos 10 200 50 4 (by norm_num) (by norm_num) (by norm_num)
        (by norm_num)))
      (ne_of_gt (dnv_den_pos 10 200 50 4 (by norm_num) (by norm_num) (by norm_num)
        (by norm_num))))
  exact h

/-- C7: on valid geometry (positive thickness and diameter, `D ≠ t`, nonzero
`UTS`, nonnegative initial depth) with a positive radial growth rate,
`calculate_ffs_assessment` succeeds, and whatever point list it returns has
exactly `projection_years + 1` points: the i-th point is for year
`inspection_year + i` (ascending), its depth is
`min(current_depth + radial_rate·i, 0.8·t)` and its length is the uncapped
`current_length + axial_rate·i`; consequently depth is non-decreasing along
the sequence, never exceeds `0.8·t`, and stays at the cap once reached. -/
theorem C7_projection_depth_cap (t D uts Pmax : ℝ) (iy py : ℕ) (rr ar cd cl : ℝ)
    (ht : 0 < t) (hrate : 0 < rr) (hD : 0 < D) (hDt : D ≠ t) (hUTS : uts ≠ 0)
    (hcd : 0 ≤ cd) :
    (calculate_ffs_assessment ⟨t, D, uts, Pmax, iy, py, rr, ar⟩ cd cl = Except.ok
      ((List.range (py + 1)).map (ffs_value ⟨t, D, uts, Pmax, iy, py, rr, ar⟩ cd cl),
       ((List.range (py + 1)).map (ffs_value ⟨t, D, uts, Pmax, iy, py, rr, ar⟩ cd cl)).foldl
         update_failure ⟨none, none, none⟩)) ∧
    (∀ results fy,
      calculate_ffs_assessment ⟨t, D, uts, Pmax, iy, py, rr, ar⟩ cd cl =
        Except.ok (results, fy) →
      results.length = py + 1 ∧
      (∀ i : ℕ, ∀ hi : i < results.length,
        (results.get ⟨i, hi⟩).year = iy + i ∧
        (results.get ⟨i, hi⟩).depth = min (cd + rr * i) (0.8 * t) ∧
        (results.get ⟨i, hi⟩).length = cl + ar * i) ∧
      (∀ i j : ℕ, ∀ hi : i < results.length, ∀ hj : j < results.length, i ≤ j →
        (results.get ⟨i, hi⟩).depth ≤ (results.get ⟨j, hj⟩).depth) ∧
      (∀ i : ℕ, ∀ hi : i < results.length, (results.get ⟨i, hi⟩).depth ≤ 0.8 * t) ∧
      (∀ i j : ℕ, ∀ hi : i < results.length, ∀ hj : j < results.length, i ≤ j →
        (results.get ⟨i, hi⟩).depth = 0.8 * t →
        (results.get ⟨j, hj⟩).depth = 0.8 * t)) := by
  have hok := calculate_ffs_assessment_ok t D uts Pmax iy py rr ar cd cl
    ht hD hDt hUTS hcd hrate.le
  refine ⟨hok, fun results fy h => ?_⟩
  rw [hok] at h
  injection h with h
  injection h with hr hf
  subst hr
  subst hf
  have hget : ∀ i : ℕ,
      ∀ hi : i < ((List.range (py + 1)).map
        (ffs_value ⟨t, D, uts, Pmax, iy, py, rr, ar⟩ cd cl)).length,
      ((List.range (py + 1)).map (ffs_value ⟨t, D, uts, Pmax, iy, py, rr, ar⟩ cd cl)).get
        ⟨i, hi⟩ = ffs_value ⟨t, D, uts, Pmax, iy, py, rr, ar⟩ cd cl i := by
    intro i hi
    simp [List.get_eq_getElem] at hi ⊢
  have hdepth : ∀ i : ℕ, (ffs_value ⟨t, D, uts, Pmax, iy, py, rr, ar⟩ cd cl i).depth =
      min (cd + rr * i) (0.8 * t) := by
    intro i
    show min (cd + rr * i) (t * 0.8) = _
    rw [mul_comm t 0.8]
  have hmono : ∀ i j : ℕ, i ≤ j → cd + rr * i ≤ cd + rr * j := by
    intro i j hij
    have : (i : ℝ) ≤ (j : ℝ) := Nat.cast_le.mpr hij
    nlinarith [hrate.le]
  refine ⟨by simp, fun i hi => ⟨?_, ?_, ?_⟩,
    fun i j hi hj hij => ?_, fun i hi => ?_, fun i j hi hj hij hcap => ?_⟩
  · rw [hget i hi]
    rfl
  · rw [hget i hi, hdepth i]
  · rw [hget i hi]
    rfl
  · rw [hget i hi, hget j hj, hdepth i, hdepth j]
    exact min_le_min (hmono i j hij) le_rfl
  · rw [hget i hi, hdepth i]
    exact min_le_right _ _
  · rw [hget i hi, hdepth i] at hcap
    rw [hget j hj, hdepth j]
    have hle : 0.8 * t ≤ cd + rr * i := min_eq_right_iff.mp hcap
    exact min_eq_right_iff.mpr (le_trans hle (hmono i j hij))

/-- C7 witness: t=10, D=200, rate=1/2, 2 projection years give 3 points. -/
theorem C7_projection_depth_cap_witness :
    ((List.range (2 + 1)).map (ffs_value ⟨10, 200, 400, 10, 2023, 2, 1 / 2, 1⟩ 2 50)).length =
      2 + 1 := by
  have H := C7_projection_depth_cap 10 200 400 10 2023 2 (1 / 2) 1 2 50 (by norm_num)
    (by norm_num) (by norm_num) (by norm_num) (by norm_num) (by norm_num)
  exact (H.2 _ _ H.1).1

/-- C8: on valid geometry `calculate_ffs_assessment` succeeds, and in
whatever pair it returns every point's per-model ERF equals `max_pressure`
divided by that model's burst pressure, `critical_erf` is the maximum of the
three ERFs, the points are in ascending year order, and each model's entry
in the returned `failure_years` is the year of the first point (in that
order) whose ERF reaches 1.0 — recorded once (a first crossing, never
overwritten) and absent (`none`) exactly when no point reaches 1.0. -/
theorem C8_erf_failure_years (t D uts Pmax : ℝ) (iy py : ℕ) (rr ar cd cl : ℝ)
    (ht : 0 < t) (hD : 0 < D) (hDt : D ≠ t) (hUTS : uts ≠ 0)
    (hcd : 0 ≤ cd) (hrr : 0 ≤ rr) :
    (calculate_ffs_assessment ⟨t, D, uts, Pmax, iy, py, rr, ar⟩ cd cl = Except.ok
      ((List.range (py + 1)).map (ffs_value ⟨t, D, uts, Pmax, iy, py, rr, ar⟩ cd cl),
       ((List.range (py + 1)).map (ffs_value ⟨t, D, uts, Pmax, iy, py, rr, ar⟩ cd cl)).foldl
         update_failure ⟨none, none, none⟩)) ∧
    (∀ results fy,
      calculate_ffs_assessment ⟨t, D, uts, Pmax, iy, py, rr, ar⟩ cd cl =
        Except.ok (results, fy) →
      (∀ p ∈ results,
        p.erf_asme = Pmax / p.P_asme ∧
        p.erf_dnv = Pmax / p.P_dnv ∧
        p.erf_pcorrc = Pmax / p.P_pcorrc ∧
        p.critical_erf = max (max p.erf_asme p.erf_dnv) p.erf_pcorrc) ∧
      (∀ i : ℕ, ∀ hi : i < results.length, (results.get ⟨i, hi⟩).year = iy + i) ∧
      (fy.asme = (results.find? fun p => decide (1 ≤ p.erf_asme)).map ProjPoint.year) ∧
      (fy.dnv = (results.find? fun p => decide (1 ≤ p.erf_dnv)).map ProjPoint.year) ∧
      (fy.pcorrc = (results.find? fun p => decide (1 ≤ p.erf_pcorrc)).map ProjPoint.year) ∧
      (fy.asme = none ↔ ∀ p ∈ results, p.erf_asme < 1) ∧
      (fy.dnv = none ↔ ∀ p ∈ results, p.erf_dnv < 1) ∧
      (fy.pcorrc = none ↔ ∀ p ∈ results, p.erf_pcorrc < 1)) := by
  have hok := calculate_ffs_assessment_ok t D uts Pmax iy py rr ar cd cl
    ht hD hDt hUTS hcd hrr
  refine ⟨hok, fun results fy h => ?_⟩
  rw [hok] at h
  injection h with h
  injection h with hr hf
  subst hr
  subst hf
  have hasme : (((List.range (py + 1)).map
        (ffs_value ⟨t, D, uts, Pmax, iy, py, rr, ar⟩ cd cl)).foldl
        update_failure ⟨none, none, none⟩).asme =
      (((List.range (py + 1)).map (ffs_value ⟨t, D, uts, Pmax, iy, py, rr, ar⟩ cd cl)).find?
        fun p => decide (1 ≤ p.erf_asme)).map ProjPoint.year := by
    rw [foldl_update_asme]
    exact foldl_first_crossing ProjPoint.erf_asme _ none
  have hdnv : (((List.range (py + 1)).map
        (ffs_value ⟨t, D, uts, Pmax, iy, py, rr, ar⟩ cd cl)).foldl
        update_failure ⟨none, none, none⟩).dnv =
      (((List.range (py + 1)).map (ffs_value ⟨t, D, uts, Pmax, iy, py, rr, ar⟩ cd cl)).find?
        fun p => decide (1 ≤ p.erf_dnv)).map ProjPoint.year := by
    rw [foldl_update_dnv]
    exact foldl_first_crossing ProjPoint.erf_dnv _ none
  have hpc : (((List.range (py + 1)).map
        (ffs_value ⟨t, D, uts, Pmax, iy, py, rr, ar⟩ cd cl)).foldl
        update_failure ⟨none, none, none⟩).pcorrc =
      (((List.range (py + 1)).map (ffs_value ⟨t, D, uts, Pmax, iy, py, rr, ar⟩ cd cl)).find?
        fun p => decide (1 ≤ p.erf_pcorrc)).map ProjPoint.year := by
    rw [foldl_update_pcorrc]
    exact foldl_first_crossing ProjPoint.erf_pcorrc _ none
  refine ⟨fun p hp => ?_, fun i hi => ?_, hasme, hdnv, hpc, ?_, ?_, ?_⟩
  · obtain ⟨e, he, rfl⟩ := List.mem_map.mp hp
    exact ⟨rfl, rfl, rfl, rfl⟩
  · have hg : ((List.range (py + 1)).map
        (ffs_value ⟨t, D, uts, Pmax, iy, py, rr, ar⟩ cd cl)).get ⟨i, hi⟩ =
        ffs_value ⟨t, D, uts, Pmax, iy, py, rr, ar⟩ cd cl i := by
      simp [List.get_eq_getElem] at hi ⊢
    rw [hg]
    rfl
  · rw [hasme]
    simp [List.find?_eq_none, not_le]
  · rw [hdnv]
    simp [List.find?_eq_none, not_le]
  · rw [hpc]
    simp [List.find?_eq_none, not_le]

/-- C8 witness: the first projection point of a concrete valid run satisfies
the ERF equations. -/
theorem C8_erf_failure_years_witness :
    (ffs_value ⟨10, 200, 400, 10, 2023, 2, 1 / 2, 1⟩ 2 50 0).erf_asme =
      (10 : ℝ) / (ffs_value ⟨10, 200, 400, 10, 2023, 2, 1 / 2, 1⟩ 2 50 0).P_asme ∧
    (ffs_value ⟨10, 200, 400, 10, 2023, 2, 1 / 2, 1⟩ 2 50 0).erf_dnv =
      (10 : ℝ) / (ffs_value ⟨10, 200, 400, 10, 2023, 2, 1 / 2, 1⟩ 2 50 0).P_dnv ∧
    (ffs_value ⟨10, 200, 400, 10, 2023, 2, 1 / 2, 1⟩ 2 50 0).erf_pcorrc =
      (10 : ℝ) / (ffs_value ⟨10, 200, 400, 10, 2023, 2, 1 / 2, 1⟩ 2 50 0).P_pcorrc ∧
    (ffs_value ⟨10, 200, 400, 10, 2023, 2, 1 / 2, 1⟩ 2 50 0).critical_erf =
      max (max (ffs_value ⟨10, 200, 400, 10, 2023, 2, 1 / 2, 1⟩ 2 50 0).erf_asme
        (ffs_value ⟨10, 200, 400, 10, 2023, 2, 1 / 2, 1⟩ 2 50 0).erf_dnv)
        (ffs_value ⟨10, 200, 400, 10, 2023, 2, 1 / 2, 1⟩ 2 50 0).erf_pcorrc := by
  have H := C8_erf_failure_years 10 200 400 10 2023 2 (1 / 2) 1 2 50 (by norm_num)
    (by norm_num) (by norm_num) (by norm_num) (by norm_num) (by norm_num)
  exact (H.2 _ _ H.1).1 (ffs_value ⟨10, 200, 400, 10, 2023, 2, 1 / 2, 1⟩ 2 50 0)
    (List.mem_map_of_mem _ (List.mem_range.mpr (by norm_num)))
